import Mathlib

/-!
Shallow embedding of the screentime Windows client's reconciliation core
(`src/windows-client/src/screentime_windows/loop.py`, `cache.py`, `notify.py`)
and proofs of the spec's claims about it.

Modelling conventions:
* Python `float` seconds/minutes are modelled as `ℚ` (exact arithmetic).
* Python `datetime` timestamps that are only stored, never compared, are `ℕ`.
* File-backed records are modelled by `FileState α`: a file is missing,
  present but corrupt/unparseable, or present with parsed contents.  The
  Python `try/except` around each load is modelled by the `corrupt` branch
  returning the same "absent" value the `except` clause returns.
* Remote (Firestore) calls may fail; each call site takes a `Bool` oracle
  that says whether that particular call succeeds.  A failed call leaves the
  remote state unchanged (the Gateway abstraction of the spec).
* Mutable objects (`MonitorState`, `LocalCache`, the remote user document)
  become explicit state passed in and out of each function.
-/

namespace Screentime

/-! ### notify.py -/

/-- Warning thresholds in minutes (`WarningLevel` IntEnum in notify.py). -/
inductive WarningLevel where
  | TEN_MINUTES
  | FIVE_MINUTES
  | ONE_MINUTE
deriving DecidableEq, Repr

/-- Numeric value of a warning level (the IntEnum value). -/
def WarningLevel.minutes : WarningLevel → ℚ
  | .TEN_MINUTES => 10
  | .FIVE_MINUTES => 5
  | .ONE_MINUTE => 1

/-- Tracks which warnings have been shown today (notify.py `NotificationState`).
The Python `set` is modelled as a list with `∈` membership. -/
structure NotificationState where
  shown_warnings : List WarningLevel := []
  last_reset_date : String := ""
deriving DecidableEq, Repr

/-- notify.py lines 26-30: reset shown warnings on new day. -/
def NotificationState.reset_if_new_day (s : NotificationState) (today : String) :
    NotificationState :=
  if s.last_reset_date ≠ today then
    { shown_warnings := [], last_reset_date := today }
  else s

/-- notify.py lines 33-41: the warning level for remaining time, if any. -/
def get_warning_level (minutes_remaining : ℚ) : Option WarningLevel :=
  if minutes_remaining ≤ WarningLevel.ONE_MINUTE.minutes then
    some .ONE_MINUTE
  else if minutes_remaining ≤ WarningLevel.FIVE_MINUTES.minutes then
    some .FIVE_MINUTES
  else if minutes_remaining ≤ WarningLevel.TEN_MINUTES.minutes then
    some .TEN_MINUTES
  else
    none

/-- notify.py lines 44-63: decide whether to show a warning. -/
def should_show_warning (minutes_remaining : ℚ) (is_whitelisted : Bool)
    (state : NotificationState) : Option WarningLevel :=
  if is_whitelisted then none
  else
    match get_warning_level minutes_remaining with
    | none => none
    | some level =>
      if level ∈ state.shown_warnings then none else some level

/-! ### cache.py -/

/-- A whitelist entry (screentime_shared `WhitelistItem`), reduced to the
fields the core reads. -/
structure WhitelistItem where
  identifier : String
  display_name : String
deriving DecidableEq, Repr

/-- One queued increment (cache.py `PendingTimeIncrement`). -/
structure PendingTimeIncrement where
  seconds : ℚ
  timestamp : ℕ
deriving DecidableEq, Repr

/-- The user-state record persisted by `save_user_state`. -/
structure UserStateRecord where
  daily_limit_minutes : ℤ
  today_used_minutes : ℚ
  last_reset_date : String
deriving DecidableEq, Repr

/-- State of one cache file on disk: absent, unparseable, or parsed. -/
inductive FileState (α : Type) where
  | missing
  | corrupt
  | valid (contents : α)
deriving DecidableEq, Repr

/-- The cache directory (cache.py `LocalCache`): three files. -/
structure LocalCache where
  whitelist_file : FileState (List WhitelistItem)
  pending_time_file : FileState (List PendingTimeIncrement)
  user_state_file : FileState UserStateRecord
deriving DecidableEq, Repr

/-- cache.py lines 56-66: load cached whitelist; `None` when the file is
missing, `None` (after logging) when it fails to parse. -/
def LocalCache.load_whitelist (c : LocalCache) : Option (List WhitelistItem) :=
  match c.whitelist_file with
  | .missing => none
  | .corrupt => none
  | .valid items => some items

/-- cache.py lines 50-54: persist the whitelist. -/
def LocalCache.save_whitelist (c : LocalCache) (items : List WhitelistItem) :
    LocalCache :=
  { c with whitelist_file := .valid items }

/-- cache.py lines 88-96: load the pending queue; `[]` when missing, `[]`
(after logging) when corrupt. -/
def LocalCache.load_pending_time (c : LocalCache) : List PendingTimeIncrement :=
  match c.pending_time_file with
  | .missing => []
  | .corrupt => []
  | .valid l => l

/-- cache.py lines 98-100: write the pending queue. -/
def LocalCache.save_pending_time (c : LocalCache)
    (pending : List PendingTimeIncrement) : LocalCache :=
  { c with pending_time_file := .valid pending }

/-- cache.py lines 68-73: append one increment to the pending queue. -/
def LocalCache.add_pending_time (c : LocalCache) (seconds : ℚ) (now : ℕ) :
    LocalCache :=
  let pending := c.load_pending_time ++ [⟨seconds, now⟩]
  c.save_pending_time pending

/-- Sum of the seconds of a list of queued increments. -/
def pendingTotal (l : List PendingTimeIncrement) : ℚ :=
  (l.map (·.seconds)).sum

/-- cache.py lines 75-86: total pending seconds, clearing the queue; on an
empty (or absent/corrupt) queue, returns 0 without writing. -/
def LocalCache.get_and_clear_pending_time (c : LocalCache) :
    ℚ × LocalCache :=
  let pending := c.load_pending_time
  if pending = [] then (0, c)
  else (pendingTotal pending, c.save_pending_time [])

/-- cache.py lines 102-114: persist the user-state triple. -/
def LocalCache.save_user_state (c : LocalCache) (daily_limit_minutes : ℤ)
    (today_used_minutes : ℚ) (last_reset_date : String) : LocalCache :=
  { c with user_state_file :=
      .valid ⟨daily_limit_minutes, today_used_minutes, last_reset_date⟩ }

/-- cache.py lines 116-129: load the user-state triple; `None` when missing
or corrupt. -/
def LocalCache.load_user_state (c : LocalCache) : Option UserStateRecord :=
  match c.user_state_file with
  | .missing => none
  | .corrupt => none
  | .valid u => some u

/-- Total seconds currently recorded in the pending-queue file. -/
def LocalCache.pending_sum (c : LocalCache) : ℚ :=
  pendingTotal c.load_pending_time

/-- Apply `add_pending_time` once per amount, in order. -/
def LocalCache.add_pending_times (c : LocalCache) (amounts : List ℚ) (now : ℕ) :
    LocalCache :=
  amounts.foldl (fun acc s => acc.add_pending_time s now) c

/-! ### loop.py data model -/

/-- In-memory state of the monitoring loop (loop.py `MonitorState`).
The wall-clock field `last_whitelist_refresh` is not carried: with synthetic
clock advances, whether a refresh is due on a tick is an oracle input
(`TickEnv.refresh_due`) instead. -/
structure MonitorState where
  whitelist : List WhitelistItem := []
  last_foreground_exe : Option String := none
  daily_limit_minutes : ℤ := 120
  today_used_minutes : ℚ := 0
  last_reset_date : String := ""
  is_locked : Bool := false
  is_online : Bool := true
  notifications : NotificationState := {}
deriving DecidableEq, Repr

/-- The authoritative remote user document (Firestore `users/{userId}` as
read and written by firebase_client.py): `increment_used_time` atomically
adds `seconds/60` to `todayUsedMinutes` and returns the new total;
`reset_daily_counter` zeroes it and stamps the date. -/
structure RemoteUser where
  daily_limit_minutes : ℤ
  today_used_minutes : ℚ
  last_reset_date : String
deriving DecidableEq, Repr

/-- The whole system: loop state, cache directory, remote user document. -/
structure Sys where
  state : MonitorState
  cache : LocalCache
  remote : RemoteUser
deriving DecidableEq, Repr

/-- Per-tick oracle: the environment of one `_tick` call.  Each `_ok` flag
says whether the corresponding remote call succeeds on this tick; `today`
is the calendar date `date.today().isoformat()` observed by this tick;
`foreground_exe` is what `get_foreground_exe()` returns. -/
structure TickEnv where
  refresh_due : Bool
  refresh_ok : Bool
  fetched_whitelist : List WhitelistItem
  sync_pending_ok : Bool
  today : String
  reset_ok : Bool
  foreground_exe : Option String
  increment_ok : Bool
  ext_fetch_ok : Bool
  approved_extensions : List ℤ
  notify_shown_ok : Bool
  now : ℕ
deriving Repr

/-- firebase_client.py lines 84-87: case-insensitive membership of the
executable name in the whitelist. -/
def is_whitelisted (exe_name : String) (whitelist : List WhitelistItem) : Bool :=
  whitelist.any (fun item => item.identifier.toLower = exe_name.toLower)

/-- loop.py lines 263-272 (`_sync_pending_time`): drain the queue; if the
total is positive, try one remote increment; on failure re-queue the total
as a single entry.  Also the flush inlined in `_initial_sync` lines 106-114. -/
def sync_pending_time (call_ok : Bool) (c : LocalCache) (r : RemoteUser)
    (now : ℕ) : LocalCache × RemoteUser :=
  let drained := c.get_and_clear_pending_time
  let pending_seconds := drained.1
  let c1 := drained.2
  if 0 < pending_seconds then
    if call_ok then
      (c1, { r with today_used_minutes := r.today_used_minutes + pending_seconds / 60 })
    else
      (c1.add_pending_time pending_seconds now, r)
  else (c1, r)

/-- loop.py lines 230-260 (`_increment_time`): online, try the atomic remote
add-and-return-total, adopt the returned total and persist; on failure flip
offline and fall through; offline, queue the seconds, optimistically add
`seconds/60` locally, persist. -/
def increment_time (env : TickEnv) (s : MonitorState) (c : LocalCache)
    (r : RemoteUser) (seconds : ℚ) : MonitorState × LocalCache × RemoteUser :=
  if s.is_online ∧ env.increment_ok then
    let r' := { r with today_used_minutes := r.today_used_minutes + seconds / 60 }
    let s' := { s with today_used_minutes := r'.today_used_minutes }
    let c' := c.save_user_state s'.daily_limit_minutes s'.today_used_minutes
      s'.last_reset_date
    (s', c', r')
  else
    let s1 := if s.is_online then { s with is_online := false } else s
    let c1 := c.add_pending_time seconds env.now
    let s2 := { s1 with today_used_minutes := s1.today_used_minutes + seconds / 60 }
    let c2 := c1.save_user_state s2.daily_limit_minutes s2.today_used_minutes
      s2.last_reset_date
    (s2, c2, r)

/-- loop.py lines 315-335 (`_handle_daily_reset`): best-effort remote reset,
then unconditionally zero the local counter, stamp the date, clear the lock,
and persist the user state. -/
def handle_daily_reset (env : TickEnv) (s : MonitorState) (c : LocalCache)
    (r : RemoteUser) : MonitorState × LocalCache × RemoteUser :=
  let r' := if s.is_online ∧ env.reset_ok then
      { r with today_used_minutes := 0, last_reset_date := env.today }
    else r
  let s' := { s with today_used_minutes := 0, last_reset_date := env.today,
                     is_locked := false }
  let c' := c.save_user_state s'.daily_limit_minutes s'.today_used_minutes
    s'.last_reset_date
  (s', c', r')

/-- loop.py lines 338-350 (`_check_extension_approvals`): on a successful
fetch, add each approved request's minutes to the in-memory limit.  Note:
no `save_user_state` call here. -/
def check_extension_approvals (env : TickEnv) (s : MonitorState) :
    MonitorState :=
  if env.ext_fetch_ok then
    { s with daily_limit_minutes :=
        env.approved_extensions.foldl (fun acc m => acc + m) s.daily_limit_minutes }
  else s

/-- loop.py lines 353-371 (`_check_time_warnings`): reset the notification
state on a new day, then evaluate the policy; if a warning is due and the
toast succeeds, record the level as shown. -/
def check_time_warnings (env : TickEnv) (s : MonitorState)
    (whitelisted : Bool) : MonitorState :=
  let notif := s.notifications.reset_if_new_day env.today
  let minutes_remaining := (s.daily_limit_minutes : ℚ) - s.today_used_minutes
  match should_show_warning minutes_remaining whitelisted notif with
  | none => { s with notifications := notif }
  | some level =>
    if env.notify_shown_ok then
      { s with notifications :=
          { notif with shown_warnings := level :: notif.shown_warnings } }
    else { s with notifications := notif }

/-- loop.py lines 216-227: the limit check at the end of `_tick`.  Returns
the new state and whether `lock_workstation()` was called on this tick. -/
def limit_check (s : MonitorState) : MonitorState × Bool :=
  if (s.daily_limit_minutes : ℚ) ≤ s.today_used_minutes then
    if s.is_locked then (s, false)
    else ({ s with is_locked := true }, true)
  else ({ s with is_locked := false }, false)

/-- Result of one `_tick`: the new system state plus instrumentation:
whether the lock fired, whether `_handle_daily_reset` ran, and whether
`_increment_time` ran (a non-whitelisted, non-idle tick). -/
structure TickResult where
  sys : Sys
  lock_fired : Bool
  reset_performed : Bool
  counted : Bool
deriving Repr

/-- loop.py lines 152-163: the periodic whitelist refresh at the top of
`_tick`.  On success: update the whitelist, persist the snapshot, flush the
pending queue if previously offline, and set `is_online`.  On failure: flip
offline.  `update_device_status` (lines 175-182) and `log_app_usage`
(lines 198-207) are omitted: their failures are swallowed and they touch no
modelled state. -/
def refresh_step (env : TickEnv) (sys : Sys) : Sys :=
  if env.refresh_due then
    if env.refresh_ok then
      let s1 := { sys.state with whitelist := env.fetched_whitelist }
      let c1 := sys.cache.save_whitelist env.fetched_whitelist
      let flushed := if ¬ s1.is_online then
          sync_pending_time env.sync_pending_ok c1 sys.remote env.now
        else (c1, sys.remote)
      ⟨{ s1 with is_online := true }, flushed.1, flushed.2⟩
    else
      ⟨{ sys.state with is_online := false }, sys.cache, sys.remote⟩
  else sys

/-- loop.py lines 165-168: the daily-reset guard in `_tick` — reset only
when the stored reset date differs from today.  Returns the system and
whether the reset ran. -/
def reset_step (env : TickEnv) (sys : Sys) : Sys × Bool :=
  if sys.state.last_reset_date ≠ env.today then
    let rst := handle_daily_reset env sys.state sys.cache sys.remote
    (⟨rst.1, rst.2.1, rst.2.2⟩, true)
  else (sys, false)

/-- loop.py lines 209-227: the tail of `_tick` after the time increment —
extension approvals (online only), time warnings, limit check.  Returns the
new state and whether the lock fired. -/
def post_activity (env : TickEnv) (whitelisted : Bool) (s : MonitorState) :
    MonitorState × Bool :=
  let s2 := if s.is_online then check_extension_approvals env s else s
  let s3 := check_time_warnings env s2 whitelisted
  limit_check s3

/-- loop.py lines 170-227: the rest of `_tick` after the reset check — read
the foreground executable (early return when none), whitelist check,
time increment, then the `post_activity` tail. -/
def activity_step (env : TickEnv) (poll_interval_seconds : ℚ) (sys : Sys)
    (reset_ran : Bool) : TickResult :=
  let s0 := { sys.state with last_foreground_exe := env.foreground_exe }
  match env.foreground_exe with
  | none => ⟨⟨s0, sys.cache, sys.remote⟩, false, reset_ran, false⟩
  | some exe =>
    let whitelisted := is_whitelisted exe s0.whitelist
    let step1 := if whitelisted then (s0, sys.cache, sys.remote)
      else increment_time env s0 sys.cache sys.remote poll_interval_seconds
    let checked := post_activity env whitelisted step1.1
    ⟨⟨checked.1, step1.2.1, step1.2.2⟩, checked.2, reset_ran, !whitelisted⟩

/-- loop.py lines 142-227 (`_tick`): one iteration of the monitoring loop,
composed from its three phases in source order. -/
def tick (env : TickEnv) (poll_interval_seconds : ℚ) (sys : Sys) : TickResult :=
  let afterReset := reset_step env (refresh_step env sys)
  activity_step env poll_interval_seconds afterReset.1 afterReset.2

/-- Oracle for `_initial_sync`: success flags for the startup pending-time
flush, the whitelist fetch, and the user fetch. -/
structure InitEnv where
  initial_flush_ok : Bool
  refresh_ok : Bool
  fetched_whitelist : List WhitelistItem
  user_fetch_ok : Bool
  now : ℕ
deriving Repr

/-- loop.py lines 127-139 (`_load_from_cache`): best-effort load of the
whitelist and user state from the local cache. -/
def load_from_cache (s : MonitorState) (c : LocalCache) : MonitorState :=
  let s1 := match c.load_whitelist with
    | some wl => { s with whitelist := wl }
    | none => s
  match c.load_user_state with
  | some u =>
    { s1 with daily_limit_minutes := u.daily_limit_minutes,
              today_used_minutes := u.today_used_minutes,
              last_reset_date := u.last_reset_date }
  | none => s1

/-- loop.py lines 101-124 (`_initial_sync`): flush pending time queued by a
previous session, then try to load whitelist and user state from the remote;
on any failure in that block, go offline and fall back to the cache.  If the
whitelist fetch succeeded but the user fetch failed, the whitelist update
and snapshot write have already happened when the exception is raised. -/
def initial_sync (env : InitEnv) (sys : Sys) : Sys :=
  let flushed := sync_pending_time env.initial_flush_ok sys.cache sys.remote env.now
  let c0 := flushed.1
  let r0 := flushed.2
  if env.refresh_ok then
    let s1 := { sys.state with whitelist := env.fetched_whitelist }
    let c1 := c0.save_whitelist env.fetched_whitelist
    if env.user_fetch_ok then
      let s2 := { s1 with daily_limit_minutes := r0.daily_limit_minutes,
                          today_used_minutes := r0.today_used_minutes,
                          last_reset_date := r0.last_reset_date,
                          is_online := true }
      let c2 := c1.save_user_state r0.daily_limit_minutes r0.today_used_minutes
        r0.last_reset_date
      ⟨s2, c2, r0⟩
    else
      ⟨load_from_cache { s1 with is_online := false } c1, c1, r0⟩
  else
    ⟨load_from_cache { sys.state with is_online := false } c0, c0, r0⟩

/-- Run a list of ticks in order, also accumulating the total seconds of
ticks on which `_increment_time` ran (non-whitelisted, non-idle ticks). -/
def run_ticks_counting (poll_interval_seconds : ℚ) :
    List TickEnv → Sys → Sys × ℚ
  | [], sys => (sys, 0)
  | env :: rest, sys =>
    let res := tick env poll_interval_seconds sys
    let tail := run_ticks_counting poll_interval_seconds rest res.sys
    (tail.1, (if res.counted then poll_interval_seconds else 0) + tail.2)

/-! ### Claim C8: warning-level mapping -/

/-- C8: `get_warning_level` returns the lowest threshold that is ≥ the
remaining minutes: r ≤ 1 yields ONE, 1 < r ≤ 5 yields FIVE, 5 < r ≤ 10
yields TEN, r > 10 yields none; in particular the six concrete evaluations
15 ↦ none, 10 ↦ TEN, 9.9 ↦ TEN, 5 ↦ FIVE, 1 ↦ ONE, 0 ↦ ONE. -/
theorem get_warning_level_spec :
    (∀ r : ℚ, r ≤ 1 → get_warning_level r = some .ONE_MINUTE) ∧
    (∀ r : ℚ, 1 < r → r ≤ 5 → get_warning_level r = some .FIVE_MINUTES) ∧
    (∀ r : ℚ, 5 < r → r ≤ 10 → get_warning_level r = some .TEN_MINUTES) ∧
    (∀ r : ℚ, 10 < r → get_warning_level r = none) ∧
    (∀ (r : ℚ) (lvl : WarningLevel), get_warning_level r = some lvl ↔
      (r ≤ lvl.minutes ∧
        ∀ l' : WarningLevel, r ≤ l'.minutes → lvl.minutes ≤ l'.minutes)) ∧
    get_warning_level 15 = none ∧
    get_warning_level 10 = some .TEN_MINUTES ∧
    get_warning_level (99/10) = some .TEN_MINUTES ∧
    get_warning_level 5 = some .FIVE_MINUTES ∧
    get_warning_level 1 = some .ONE_MINUTE ∧
    get_warning_level 0 = some .ONE_MINUTE := by
  have h1 : ∀ r : ℚ, r ≤ 1 → get_warning_level r = some .ONE_MINUTE := by
    intro r hr
    simp [get_warning_level, WarningLevel.minutes, hr]
  have h5 : ∀ r : ℚ, 1 < r → r ≤ 5 → get_warning_level r = some .FIVE_MINUTES := by
    intro r hr1 hr5
    simp [get_warning_level, WarningLevel.minutes, not_le.mpr hr1, hr5]
  have h10 : ∀ r : ℚ, 5 < r → r ≤ 10 → get_warning_level r = some .TEN_MINUTES := by
    intro r hr5 hr10
    have hr1 : ¬ r ≤ 1 := by linarith
    simp [get_warning_level, WarningLevel.minutes, hr1, not_le.mpr hr5, hr10]
  have hnone : ∀ r : ℚ, 10 < r → get_warning_level r = none := by
    intro r hr
    have hr1 : ¬ r ≤ 1 := by linarith
    have hr5 : ¬ r ≤ 5 := by linarith
    simp [get_warning_level, WarningLevel.minutes, hr1, hr5, not_le.mpr hr]
  refine ⟨h1, h5, h10, hnone, ?_, hnone 15 (by norm_num), h10 10 (by norm_num) le_rfl,
    h10 (99/10) (by norm_num) (by norm_num), h5 5 (by norm_num) le_rfl,
    h1 1 le_rfl, h1 0 (by norm_num)⟩
  intro r lvl
  constructor
  · intro heq
    rcases le_or_lt r 1 with hr | hr1
    · rw [h1 r hr] at heq
      cases heq
      refine ⟨hr, ?_⟩
      intro l' _
      cases l' <;> simp [WarningLevel.minutes] <;> norm_num
    rcases le_or_lt r 5 with hr | hr5
    · rw [h5 r hr1 hr] at heq
      cases heq
      refine ⟨hr, ?_⟩
      intro l' hl'
      cases l' <;> simp [WarningLevel.minutes] at hl' ⊢ <;> try norm_num
      linarith
    rcases le_or_lt r 10 with hr | hr10
    · rw [h10 r hr5 hr] at heq
      cases heq
      refine ⟨hr, ?_⟩
      intro l' hl'
      cases l' <;> simp [WarningLevel.minutes] at hl' ⊢ <;> linarith
    · rw [hnone r hr10] at heq
      cases heq
  · rintro ⟨hle, hmin⟩
    rcases le_or_lt r 1 with hr | hr1
    · have := hmin .ONE_MINUTE (by simpa [WarningLevel.minutes] using hr)
      cases lvl <;> simp [WarningLevel.minutes] at this ⊢ <;>
        first
        | exact h1 r hr
        | linarith
    rcases le_or_lt r 5 with hr | hr5
    · have := hmin .FIVE_MINUTES (by simpa [WarningLevel.minutes] using hr)
      cases lvl <;> simp [WarningLevel.minutes] at this hle ⊢ <;>
        first
        | exact h5 r hr1 hr
        | linarith
    rcases le_or_lt r 10 with hr | hr10
    · cases lvl <;> simp [WarningLevel.minutes] at hle ⊢ <;>
        first
        | exact h10 r hr5 hr
        | linarith
    · cases lvl <;> simp [WarningLevel.minutes] at hle <;> linarith

/-- C8 witness: the theorem applied at the spec's concrete inputs. -/
theorem get_warning_level_spec_witness :
    get_warning_level (1/2) = some .ONE_MINUTE ∧
    get_warning_level 4 = some .FIVE_MINUTES ∧
    get_warning_level 8 = some .TEN_MINUTES ∧
    get_warning_level 12 = none :=
  ⟨get_warning_level_spec.1 (1/2) (by norm_num),
   get_warning_level_spec.2.1 4 (by norm_num) (by norm_num),
   get_warning_level_spec.2.2.1 8 (by norm_num) (by norm_num),
   get_warning_level_spec.2.2.2.1 12 (by norm_num)⟩

/-! ### Claim C7: no-repeat warning -/

/-- C7: `should_show_warning` returns none when whitelisted, when no
threshold is crossed, or when the level was already shown; otherwise it
returns the level.  After `reset_if_new_day` with a different date the
shown set is empty, so a previously shown TEN becomes showable again at
5 < r ≤ 10. -/
theorem should_show_warning_spec :
    (∀ (r : ℚ) (s : NotificationState), should_show_warning r true s = none) ∧
    (∀ (r : ℚ) (w : Bool) (s : NotificationState), get_warning_level r = none →
      should_show_warning r w s = none) ∧
    (∀ (r : ℚ) (w : Bool) (s : NotificationState) (lvl : WarningLevel),
      get_warning_level r = some lvl → lvl ∈ s.shown_warnings →
      should_show_warning r w s = none) ∧
    (∀ (r : ℚ) (s : NotificationState) (lvl : WarningLevel),
      get_warning_level r = some lvl → lvl ∉ s.shown_warnings →
      should_show_warning r false s = some lvl) ∧
    (∀ (s : NotificationState) (today : String), s.last_reset_date ≠ today →
      (s.reset_if_new_day today).shown_warnings = []) ∧
    (∀ (s : NotificationState) (today : String) (r : ℚ),
      s.last_reset_date ≠ today → 5 < r → r ≤ 10 →
      should_show_warning r false (s.reset_if_new_day today) =
        some .TEN_MINUTES) := by
  have hreset : ∀ (s : NotificationState) (today : String),
      s.last_reset_date ≠ today →
      (s.reset_if_new_day today).shown_warnings = [] := by
    intro s today h
    simp [NotificationState.reset_if_new_day, h]
  have hten : ∀ r : ℚ, 5 < r → r ≤ 10 →
      get_warning_level r = some .TEN_MINUTES := by
    intro r hr5 hr10
    have hr1 : ¬ r ≤ 1 := by linarith
    simp [get_warning_level, WarningLevel.minutes, hr1, not_le.mpr hr5, hr10]
  refine ⟨?_, ?_, ?_, ?_, hreset, ?_⟩
  · intro r s
    simp [should_show_warning]
  · intro r w s h
    cases w <;> simp [should_show_warning, h]
  · intro r w s lvl h hmem
    cases w <;> simp [should_show_warning, h, hmem]
  · intro r s lvl h hmem
    simp [should_show_warning, h, hmem]
  · intro s today r hday hr5 hr10
    simp [should_show_warning, hten r hr5 hr10, hreset s today hday]

/-- C7 witness: after TEN has been shown, `should_show(8, false, ·)` is
none; after a day change the state is cleared and TEN is showable again. -/
theorem should_show_warning_spec_witness :
    should_show_warning 8 false ⟨[.TEN_MINUTES], "2024-01-15"⟩ = none ∧
    should_show_warning 8 false
      ((⟨[.TEN_MINUTES], "2024-01-15"⟩ :
        NotificationState).reset_if_new_day "2024-01-16") =
      some .TEN_MINUTES ∧
    should_show_warning 8 true ⟨[], "2024-01-15"⟩ = none ∧
    should_show_warning 30 false ⟨[], "2024-01-15"⟩ = none :=
  ⟨should_show_warning_spec.2.2.1 8 false ⟨[.TEN_MINUTES], "2024-01-15"⟩
      .TEN_MINUTES (by decide) (by decide),
   should_show_warning_spec.2.2.2.2.2 ⟨[.TEN_MINUTES], "2024-01-15"⟩
      "2024-01-16" 8 (by decide) (by norm_num) (by norm_num),
   should_show_warning_spec.1 8 ⟨[], "2024-01-15"⟩,
   should_show_warning_spec.2.1 30 false ⟨[], "2024-01-15"⟩ (by decide)⟩

/-! ### Cache helper lemmas -/

lemma load_save_pending (c : LocalCache) (l : List PendingTimeIncrement) :
    (c.save_pending_time l).load_pending_time = l := rfl

lemma load_add_pending (c : LocalCache) (s : ℚ) (now : ℕ) :
    (c.add_pending_time s now).load_pending_time =
      c.load_pending_time ++ [⟨s, now⟩] := rfl

lemma get_and_clear_empty (c : LocalCache) (h : c.load_pending_time = []) :
    c.get_and_clear_pending_time = (0, c) := by
  simp [LocalCache.get_and_clear_pending_time, h]

lemma get_and_clear_nonempty (c : LocalCache)
    (h : ¬ c.load_pending_time = []) :
    c.get_and_clear_pending_time =
      (pendingTotal c.load_pending_time, c.save_pending_time []) := by
  simp [LocalCache.get_and_clear_pending_time, h]

lemma pendingTotal_map (amounts : List ℚ) (now : ℕ) :
    pendingTotal (amounts.map (fun a => ⟨a, now⟩)) = amounts.sum := by
  induction amounts with
  | nil => simp [pendingTotal]
  | cons a rest ih =>
    simp only [pendingTotal, List.map_cons, List.sum_cons] at ih ⊢
    rw [ih]

/-! ### Claim C4: pending-queue round trip -/

/-- Appending increments one by one extends the stored queue in order. -/
lemma load_pending_add_pending_times (c : LocalCache) (amounts : List ℚ)
    (now : ℕ) :
    (c.add_pending_times amounts now).load_pending_time =
      c.load_pending_time ++ amounts.map (fun a => ⟨a, now⟩) := by
  induction amounts generalizing c with
  | nil => simp [LocalCache.add_pending_times]
  | cons a rest ih =>
    have step : (c.add_pending_time a now).load_pending_time =
        c.load_pending_time ++ [⟨a, now⟩] := by
      simp [LocalCache.add_pending_time, LocalCache.save_pending_time,
        LocalCache.load_pending_time]
    calc (c.add_pending_times (a :: rest) now).load_pending_time
        = ((c.add_pending_time a now).add_pending_times rest now).load_pending_time := by
          simp [LocalCache.add_pending_times]
      _ = (c.add_pending_time a now).load_pending_time ++
            rest.map (fun a => ⟨a, now⟩) := ih _
      _ = c.load_pending_time ++ (a :: rest).map (fun a => (⟨a, now⟩ :
            PendingTimeIncrement)) := by
          simp [step]

/-- A store whose pending file already holds a 40-second entry. -/
def c4_store : LocalCache :=
  ⟨.missing, .valid [⟨40, 0⟩], .missing⟩

/-- C4 counterexample: the round trip quantified over EVERY store state is
false — a store whose pending queue already holds 40 seconds yields 140,
not 100, after adding 30, 60, 10. -/
theorem pending_round_trip_counterexample :
    ¬ ((c4_store.add_pending_times [30, 60, 10] 1).get_and_clear_pending_time).1
        = 30 + 60 + 10 := by
  have hload : (c4_store.add_pending_times [30, 60, 10] 1).load_pending_time =
      [⟨40, 0⟩, ⟨30, 1⟩, ⟨60, 1⟩, ⟨10, 1⟩] := by
    rw [load_pending_add_pending_times]
    rfl
  rw [get_and_clear_nonempty _ (by rw [hload]; simp), hload]
  simp only [pendingTotal, List.map_cons, List.map_nil, List.sum_cons,
    List.sum_nil]
  norm_num

/-- C4 (amended): for every store state whose pending queue is empty (file
missing, corrupt, or holding no entries), draining after adds s1..sn
returns s1+...+sn; a drain immediately after a drain returns 0; a drain of
an empty queue returns 0. -/
theorem pending_round_trip :
    (∀ (c : LocalCache) (amounts : List ℚ) (now : ℕ),
      c.load_pending_time = [] →
      ((c.add_pending_times amounts now).get_and_clear_pending_time).1 =
        amounts.sum) ∧
    (∀ c : LocalCache,
      (((c.get_and_clear_pending_time).2).get_and_clear_pending_time).1 = 0) ∧
    (∀ c : LocalCache, c.load_pending_time = [] →
      (c.get_and_clear_pending_time).1 = 0) := by
  refine ⟨?_, ?_, ?_⟩
  · intro c amounts now hc
    have hload := load_pending_add_pending_times c amounts now
    rw [hc, List.nil_append] at hload
    rcases amounts with _ | ⟨a, rest⟩
    · simp at hload
      rw [get_and_clear_empty _ hload]
      simp
    · rw [get_and_clear_nonempty _ (by rw [hload]; simp), hload,
        pendingTotal_map]
  · intro c
    by_cases h : c.load_pending_time = []
    · rw [get_and_clear_empty _ h]
      rw [get_and_clear_empty _ h]
    · rw [get_and_clear_nonempty _ h]
      rw [get_and_clear_empty _ (load_save_pending _ _)]
  · intro c h
    rw [get_and_clear_empty _ h]

/-- C4 witness: the spec's example on a fresh store — 30, 60, 10 drains to
100 and a second drain returns 0. -/
theorem pending_round_trip_witness :
    (((⟨.missing, .missing, .missing⟩ : LocalCache).add_pending_times
        [30, 60, 10] 0).get_and_clear_pending_time).1 = 100 ∧
    (((⟨.missing, .missing, .missing⟩ :
        LocalCache).get_and_clear_pending_time).2.get_and_clear_pending_time).1
      = 0 := by
  constructor
  · have h := pending_round_trip.1 ⟨.missing, .missing, .missing⟩ [30, 60, 10] 0
      (by decide)
    rw [h]
    norm_num
  · exact pending_round_trip.2.1 ⟨.missing, .missing, .missing⟩

/-! ### Claim C9: loads are total and treat corrupt as absent -/

/-- C9: every load returns an explicit absent result — none for the
whitelist and user state, an empty list and a 0 total for the pending
queue — both when the file is missing and when it is corrupt; the loads are
total Lean functions, so no exception propagates. -/
theorem loads_never_raise :
    (∀ c : LocalCache,
      c.whitelist_file = .missing ∨ c.whitelist_file = .corrupt →
      c.load_whitelist = none) ∧
    (∀ c : LocalCache,
      c.user_state_file = .missing ∨ c.user_state_file = .corrupt →
      c.load_user_state = none) ∧
    (∀ c : LocalCache,
      c.pending_time_file = .missing ∨ c.pending_time_file = .corrupt →
      c.load_pending_time = [] ∧ (c.get_and_clear_pending_time).1 = 0 ∧
        (c.get_and_clear_pending_time).2 = c) := by
  refine ⟨?_, ?_, ?_⟩
  · rintro c (h | h) <;> simp [LocalCache.load_whitelist, h]
  · rintro c (h | h) <;> simp [LocalCache.load_user_state, h]
  · rintro c (h | h) <;>
      simp [LocalCache.load_pending_time, LocalCache.get_and_clear_pending_time, h]

/-- C9 witness: a cache with a corrupt pending file and a missing user-state
file loads as absent. -/
theorem loads_never_raise_witness :
    (⟨.corrupt, .corrupt, .missing⟩ : LocalCache).load_whitelist = none ∧
    (⟨.corrupt, .corrupt, .missing⟩ : LocalCache).load_user_state = none ∧
    (⟨.corrupt, .corrupt, .missing⟩ : LocalCache).load_pending_time = [] :=
  ⟨(loads_never_raise.1 _ (Or.inr rfl)),
   (loads_never_raise.2.1 _ (Or.inl rfl)),
   (loads_never_raise.2.2 _ (Or.inr rfl)).1⟩

/-! ### Loop helper lemmas -/

lemma sync_pending_user_file (ok : Bool) (c : LocalCache) (r : RemoteUser)
    (now : ℕ) :
    ((sync_pending_time ok c r now).1).user_state_file = c.user_state_file ∧
    ((sync_pending_time ok c r now).2).last_reset_date = r.last_reset_date ∧
    ((sync_pending_time ok c r now).2).daily_limit_minutes =
      r.daily_limit_minutes := by
  unfold sync_pending_time
  by_cases h : c.load_pending_time = []
  · simp [get_and_clear_empty _ h]
  · simp only [get_and_clear_nonempty _ h]
    split
    · split <;>
        simp [LocalCache.add_pending_time, LocalCache.save_pending_time,
          LocalCache.load_pending_time]
    · simp [LocalCache.save_pending_time]

lemma refresh_step_preserves (env : TickEnv) (sys : Sys) :
    (refresh_step env sys).state.last_reset_date =
      sys.state.last_reset_date ∧
    (refresh_step env sys).state.today_used_minutes =
      sys.state.today_used_minutes ∧
    (refresh_step env sys).state.daily_limit_minutes =
      sys.state.daily_limit_minutes ∧
    (refresh_step env sys).state.is_locked = sys.state.is_locked ∧
    (refresh_step env sys).cache.user_state_file =
      sys.cache.user_state_file ∧
    (refresh_step env sys).remote.last_reset_date =
      sys.remote.last_reset_date := by
  unfold refresh_step
  split
  · split
    · simp [LocalCache.save_whitelist, sync_pending_user_file]
      split
      · exact ⟨(sync_pending_user_file _ _ _ _).1,
          (sync_pending_user_file _ _ _ _).2.1⟩
      · simp
    · simp
  · simp

lemma increment_time_fields (env : TickEnv) (s : MonitorState)
    (c : LocalCache) (r : RemoteUser) (sec : ℚ) :
    (increment_time env s c r sec).1.last_reset_date = s.last_reset_date ∧
    (increment_time env s c r sec).1.daily_limit_minutes =
      s.daily_limit_minutes ∧
    (increment_time env s c r sec).2.2.last_reset_date = r.last_reset_date ∧
    (increment_time env s c r sec).2.1.user_state_file =
      .valid ⟨s.daily_limit_minutes,
        (increment_time env s c r sec).1.today_used_minutes,
        s.last_reset_date⟩ ∧
    (increment_time env s c r sec).1.notifications = s.notifications ∧
    (increment_time env s c r sec).1.is_locked = s.is_locked := by
  unfold increment_time
  split <;>
    simp [LocalCache.save_user_state, LocalCache.add_pending_time,
      LocalCache.save_pending_time] <;>
    split <;> simp

lemma check_extension_fields (env : TickEnv) (s : MonitorState) :
    (check_extension_approvals env s).today_used_minutes =
      s.today_used_minutes ∧
    (check_extension_approvals env s).last_reset_date = s.last_reset_date ∧
    (check_extension_approvals env s).is_locked = s.is_locked ∧
    (check_extension_approvals env s).is_online = s.is_online ∧
    (check_extension_approvals env s).notifications = s.notifications := by
  unfold check_extension_approvals
  split <;> simp

lemma check_time_warnings_fields (env : TickEnv) (s : MonitorState)
    (w : Bool) :
    (check_time_warnings env s w).today_used_minutes =
      s.today_used_minutes ∧
    (check_time_warnings env s w).last_reset_date = s.last_reset_date ∧
    (check_time_warnings env s w).daily_limit_minutes =
      s.daily_limit_minutes ∧
    (check_time_warnings env s w).is_locked = s.is_locked ∧
    (check_time_warnings env s w).is_online = s.is_online := by
  unfold check_time_warnings
  rcases h : should_show_warning ((s.daily_limit_minutes : ℚ) -
      s.today_used_minutes) w (s.notifications.reset_if_new_day env.today) with
    _ | lvl <;> simp [h] <;> split <;> simp

lemma limit_check_fields (s : MonitorState) :
    (limit_check s).1.today_used_minutes = s.today_used_minutes ∧
    (limit_check s).1.last_reset_date = s.last_reset_date ∧
    (limit_check s).1.daily_limit_minutes = s.daily_limit_minutes ∧
    (limit_check s).1.is_online = s.is_online ∧
    (limit_check s).1.notifications = s.notifications := by
  unfold limit_check
  split <;> [split; skip] <;> simp

lemma post_activity_fields (env : TickEnv) (w : Bool) (s : MonitorState) :
    (post_activity env w s).1.last_reset_date = s.last_reset_date ∧
    (post_activity env w s).1.today_used_minutes = s.today_used_minutes ∧
    (post_activity env w s).1.is_online = s.is_online := by
  unfold post_activity
  by_cases h : s.is_online = true
  · simp only [h, if_true]
    rw [(limit_check_fields _).2.1, (limit_check_fields _).1,
      (limit_check_fields _).2.2.2.1, (check_time_warnings_fields _ _ _).2.1,
      (check_time_warnings_fields _ _ _).1,
      (check_time_warnings_fields _ _ _).2.2.2.2,
      (check_extension_fields _ _).2.1, (check_extension_fields _ _).1,
      (check_extension_fields _ _).2.2.2.1]
    exact ⟨rfl, rfl, h⟩
  · simp only [h, if_false, Bool.false_eq_true]
    rw [(limit_check_fields _).2.1, (limit_check_fields _).1,
      (limit_check_fields _).2.2.2.1, (check_time_warnings_fields _ _ _).2.1,
      (check_time_warnings_fields _ _ _).1,
      (check_time_warnings_fields _ _ _).2.2.2.2]
    exact ⟨rfl, rfl, by simpa using h⟩

lemma reset_step_date (env : TickEnv) (sys : Sys) :
    ((reset_step env sys).1).state.last_reset_date = env.today := by
  unfold reset_step
  split
  · simp [handle_daily_reset]
  · simp_all [not_not]

lemma reset_step_skip (env : TickEnv) (sys : Sys)
    (h : sys.state.last_reset_date = env.today) :
    reset_step env sys = (sys, false) := by
  unfold reset_step
  simp [h]

lemma activity_step_date (env : TickEnv) (poll : ℚ) (sys : Sys) (b : Bool) :
    (activity_step env poll sys b).sys.state.last_reset_date =
      sys.state.last_reset_date ∧
    (activity_step env poll sys b).reset_performed = b := by
  unfold activity_step
  rcases henv : env.foreground_exe with _ | exe
  · simp [henv]
  · simp only [henv]
    refine ⟨?_, by trivial⟩
    rw [(post_activity_fields _ _ _).1]
    split
    · rfl
    · exact (increment_time_fields _ _ _ _ _).1

lemma tick_components (env : TickEnv) (poll : ℚ) (sys : Sys) :
    tick env poll sys =
      activity_step env poll (reset_step env (refresh_step env sys)).1
        (reset_step env (refresh_step env sys)).2 := rfl

lemma tick_date (env : TickEnv) (poll : ℚ) (sys : Sys) :
    (tick env poll sys).sys.state.last_reset_date = env.today := by
  rw [tick_components]
  rw [(activity_step_date _ _ _ _).1, reset_step_date]

/-! ### Claim C3: daily reset is idempotent -/

/-- C3: once a tick has performed the daily reset for a date (leaving
`last_reset_date` equal to today), a later tick on the same date leaves the
reset phase as the identity — the guard is the date-equality check — so it
never zeroes `today_used_minutes` a second time. -/
theorem daily_reset_idempotent (env1 env2 : TickEnv) (poll1 poll2 : ℚ)
    (sys : Sys) (hsame : env2.today = env1.today) :
    reset_step env2 (tick env1 poll1 sys).sys =
      ((tick env1 poll1 sys).sys, false) ∧
    (tick env2 poll2 (tick env1 poll1 sys).sys).reset_performed = false := by
  have hdate : (tick env1 poll1 sys).sys.state.last_reset_date = env2.today := by
    rw [tick_date, hsame]
  refine ⟨reset_step_skip _ _ hdate, ?_⟩
  rw [tick_components env2 poll2]
  rw [(activity_step_date _ _ _ _).2]
  have hdate2 :
      (refresh_step env2 (tick env1 poll1 sys).sys).state.last_reset_date =
        env2.today := by
    rw [(refresh_step_preserves _ _).1, hdate]
  rw [reset_step_skip _ _ hdate2]

/-- Concrete tick environment for the C3 witness: a new day, idle probe. -/
def c3_env : TickEnv :=
  { refresh_due := false, refresh_ok := false, fetched_whitelist := [],
    sync_pending_ok := false, today := "2024-01-16", reset_ok := true,
    foreground_exe := none, increment_ok := true, ext_fetch_ok := false,
    approved_extensions := [], notify_shown_ok := true, now := 0 }

/-- Concrete starting system for the C3 witness, dated the previous day. -/
def c3_sys : Sys :=
  { state := { last_reset_date := "2024-01-15" },
    cache := ⟨.missing, .missing, .missing⟩,
    remote := ⟨120, 0, "2024-01-15"⟩ }

/-- C3 witness: a concrete second tick on the same date does not reset. -/
theorem daily_reset_idempotent_witness :
    (tick { c3_env with now := 1 } 10
      (tick c3_env 10 c3_sys).sys).reset_performed = false :=
  (daily_reset_idempotent c3_env { c3_env with now := 1 } 10 10 c3_sys rfl).2

/-! ### Claim C6: lock hysteresis -/

/-- C6: at the limit check, crossing the limit while unlocked fires the
enforcement action exactly once and sets the lock; while locked, no further
action fires; under the limit (for example after an extension raised it),
the lock clears on the same tick. -/
theorem lock_hysteresis (s : MonitorState) :
    ((s.daily_limit_minutes : ℚ) ≤ s.today_used_minutes →
      s.is_locked = false →
      limit_check s = ({ s with is_locked := true }, true)) ∧
    ((s.daily_limit_minutes : ℚ) ≤ s.today_used_minutes →
      s.is_locked = true → limit_check s = (s, false)) ∧
    (s.today_used_minutes < (s.daily_limit_minutes : ℚ) →
      limit_check s = ({ s with is_locked := false }, false)) := by
  refine ⟨?_, ?_, ?_⟩
  · intro hle hlk
    simp [limit_check, hle, hlk]
  · intro hle hlk
    simp [limit_check, hle, hlk]
  · intro hlt
    simp [limit_check, not_le.mpr hlt]

/-- C6 witness: the three scenarios at concrete states — crossing fires and
locks, staying over the limit stays silent, and an extension that raises
the limit above usage unlocks at once. -/
theorem lock_hysteresis_witness :
    limit_check { daily_limit_minutes := 120, today_used_minutes := 120,
                  is_locked := false } =
      ({ daily_limit_minutes := 120, today_used_minutes := 120,
         is_locked := true }, true) ∧
    limit_check { daily_limit_minutes := 120, today_used_minutes := 130,
                  is_locked := true } =
      ({ daily_limit_minutes := 120, today_used_minutes := 130,
         is_locked := true }, false) ∧
    limit_check { daily_limit_minutes := 150, today_used_minutes := 130,
                  is_locked := true } =
      ({ daily_limit_minutes := 150, today_used_minutes := 130,
         is_locked := false }, false) :=
  ⟨(lock_hysteresis _).1 (by norm_num) rfl,
   (lock_hysteresis _).2.1 (by norm_num) rfl,
   (lock_hysteresis _).2.2 (by norm_num)⟩

/-! ### Claim C10: daily reset leaves the pending queue alone -/

lemma pending_sum_nil (c : LocalCache) (h : c.load_pending_time = []) :
    c.pending_sum = 0 := by
  simp [LocalCache.pending_sum, h, pendingTotal]

/-- A successful flush moves exactly the queued seconds to the remote. -/
lemma sync_pending_success (c : LocalCache) (r : RemoteUser) (now : ℕ)
    (h0 : 0 ≤ c.pending_sum) :
    (sync_pending_time true c r now).2.today_used_minutes =
      r.today_used_minutes + c.pending_sum / 60 := by
  unfold sync_pending_time
  by_cases h : c.load_pending_time = []
  · simp [get_and_clear_empty _ h, pending_sum_nil _ h]
  · simp only [get_and_clear_nonempty _ h]
    have hps : pendingTotal c.load_pending_time = c.pending_sum := rfl
    split
    · simp [hps]
    · rename_i hlt
      rw [hps] at hlt
      have : c.pending_sum = 0 := le_antisymm (not_lt.mp hlt) h0
      simp [this]

/-- C10: `_handle_daily_reset` never touches the pending-queue file, and
consequently seconds queued before a day boundary are credited by the next
successful flush to the new day's freshly reset remote counter. -/
theorem daily_reset_preserves_pending (env : TickEnv) (s : MonitorState)
    (c : LocalCache) (r : RemoteUser) :
    ((handle_daily_reset env s c r).2.1).pending_time_file =
      c.pending_time_file ∧
    (s.is_online = true → env.reset_ok = true → 0 ≤ c.pending_sum →
      ∀ fnow : ℕ,
        (sync_pending_time true (handle_daily_reset env s c r).2.1
            (handle_daily_reset env s c r).2.2 fnow).2.today_used_minutes =
          c.pending_sum / 60 ∧
        (sync_pending_time true (handle_daily_reset env s c r).2.1
            (handle_daily_reset env s c r).2.2 fnow).2.last_reset_date =
          env.today) := by
  have hfile : ((handle_daily_reset env s c r).2.1).pending_time_file =
      c.pending_time_file := by
    simp [handle_daily_reset, LocalCache.save_user_state]
  refine ⟨hfile, ?_⟩
  intro hon hok hsum fnow
  have hremote : (handle_daily_reset env s c r).2.2 =
      { r with today_used_minutes := 0, last_reset_date := env.today } := by
    simp [handle_daily_reset, hon, hok]
  have hcsum : ((handle_daily_reset env s c r).2.1).pending_sum =
      c.pending_sum := by
    simp [LocalCache.pending_sum, LocalCache.load_pending_time, hfile]
  constructor
  · rw [sync_pending_success _ _ _ (hcsum ▸ hsum), hremote, hcsum]
    simp
  · rw [(sync_pending_user_file _ _ _ _).2.1, hremote]

/-- C10 witness: 300 seconds queued on the old day, reset to the new day,
then a successful flush: the new day's remote counter reads 5 minutes. -/
theorem daily_reset_preserves_pending_witness :
    ((handle_daily_reset c3_env { last_reset_date := "2024-01-15" }
        ⟨.missing, .valid [⟨300, 0⟩], .missing⟩
        ⟨120, 44, "2024-01-15"⟩).2.1).pending_time_file =
      .valid [⟨300, 0⟩] ∧
    (sync_pending_time true
        (handle_daily_reset c3_env { last_reset_date := "2024-01-15" }
          ⟨.missing, .valid [⟨300, 0⟩], .missing⟩
          ⟨120, 44, "2024-01-15"⟩).2.1
        (handle_daily_reset c3_env { last_reset_date := "2024-01-15" }
          ⟨.missing, .valid [⟨300, 0⟩], .missing⟩
          ⟨120, 44, "2024-01-15"⟩).2.2 7).2.today_used_minutes = 5 ∧
    (sync_pending_time true
        (handle_daily_reset c3_env { last_reset_date := "2024-01-15" }
          ⟨.missing, .valid [⟨300, 0⟩], .missing⟩
          ⟨120, 44, "2024-01-15"⟩).2.1
        (handle_daily_reset c3_env { last_reset_date := "2024-01-15" }
          ⟨.missing, .valid [⟨300, 0⟩], .missing⟩
          ⟨120, 44, "2024-01-15"⟩).2.2 7).2.last_reset_date =
      "2024-01-16" := by
  have hsum : (⟨.missing, .valid [⟨300, 0⟩], .missing⟩ :
      LocalCache).pending_sum = 300 := by
    simp [LocalCache.pending_sum, LocalCache.load_pending_time, pendingTotal]
  have h := daily_reset_preserves_pending c3_env
    { last_reset_date := "2024-01-15" }
    ⟨.missing, .valid [⟨300, 0⟩], .missing⟩ ⟨120, 44, "2024-01-15"⟩
  have h2 := h.2 rfl rfl (by rw [hsum]; norm_num) 7
  refine ⟨h.1, ?_, h2.2⟩
  rw [h2.1, hsum]
  norm_num

/-! ### Claim C5: durable user-state freshness -/

lemma reset_step_cases (env : TickEnv) (sys : Sys) :
    reset_step env sys = (sys, false) ∨
    ∃ l, ((reset_step env sys).1).cache.user_state_file =
        .valid ⟨l, (reset_step env sys).1.state.today_used_minutes,
                 (reset_step env sys).1.state.last_reset_date⟩ := by
  unfold reset_step
  split
  · right
    exact ⟨sys.state.daily_limit_minutes, by
      simp [handle_daily_reset, LocalCache.save_user_state]⟩
  · left
    rfl

lemma activity_step_user_state (env : TickEnv) (poll : ℚ) (sys : Sys)
    (b : Bool) :
    ((activity_step env poll sys b).sys.state.today_used_minutes =
        sys.state.today_used_minutes ∧
      (activity_step env poll sys b).sys.state.last_reset_date =
        sys.state.last_reset_date ∧
      (activity_step env poll sys b).sys.cache.user_state_file =
        sys.cache.user_state_file) ∨
    ∃ l, (activity_step env poll sys b).sys.cache.user_state_file =
        .valid ⟨l,
          (activity_step env poll sys b).sys.state.today_used_minutes,
          (activity_step env poll sys b).sys.state.last_reset_date⟩ := by
  unfold activity_step
  rcases henv : env.foreground_exe with _ | exe
  · left
    simp [henv]
  · simp only [henv]
    by_cases hw : is_whitelisted exe sys.state.whitelist = true
    · left
      simp only [hw, if_true]
      refine ⟨?_, ?_, by trivial⟩
      · rw [(post_activity_fields _ _ _).2.1]
      · rw [(post_activity_fields _ _ _).1]
    · right
      simp only [hw, if_false, Bool.false_eq_true]
      refine ⟨sys.state.daily_limit_minutes, ?_⟩
      rw [(post_activity_fields _ _ _).2.1, (post_activity_fields _ _ _).1,
        (increment_time_fields _ _ _ _ _).1,
        (increment_time_fields _ _ _ _ _).2.2.2.1]

/-- C5 (amended): every tick operation that changes `today_used_minutes` or
`last_reset_date` persists the updated triple via `save_user_state` before
the tick ends; the extension-approval update to `daily_limit_minutes` alone
is not persisted within that tick (see the counterexample). -/
theorem user_state_persisted (env : TickEnv) (poll : ℚ) (sys : Sys)
    (hchange : (tick env poll sys).sys.state.today_used_minutes ≠
        sys.state.today_used_minutes ∨
      (tick env poll sys).sys.state.last_reset_date ≠
        sys.state.last_reset_date) :
    ∃ l : ℤ, (tick env poll sys).sys.cache.user_state_file =
      .valid ⟨l, (tick env poll sys).sys.state.today_used_minutes,
               (tick env poll sys).sys.state.last_reset_date⟩ := by
  rw [tick_components] at hchange ⊢
  rcases reset_step_cases env (refresh_step env sys) with hres | hres
  · rw [hres] at hchange ⊢
    rcases activity_step_user_state env poll (refresh_step env sys) false with
      hact | hact
    · exfalso
      rcases hchange with hch | hch
      · exact hch (by rw [hact.1, (refresh_step_preserves env sys).2.1])
      · exact hch (by rw [hact.2.1, (refresh_step_preserves env sys).1])
    · exact hact
  · obtain ⟨l, hl⟩ := hres
    rcases activity_step_user_state env poll
        (reset_step env (refresh_step env sys)).1
        (reset_step env (refresh_step env sys)).2 with hact | hact
    · exact ⟨l, by rw [hact.2.2, hact.1, hact.2.1]; exact hl⟩
    · exact hact

/-- Concrete tick environment for the C5 counterexample: online, refresh not
due, a whitelisted foreground app, and one approved 30-minute extension. -/
def c5_env : TickEnv :=
  { refresh_due := false, refresh_ok := true, fetched_whitelist := [],
    sync_pending_ok := true, today := "2024-01-15", reset_ok := true,
    foreground_exe := some "game.exe", increment_ok := true,
    ext_fetch_ok := true, approved_extensions := [30],
    notify_shown_ok := true, now := 0 }

/-- Concrete starting system for the C5 counterexample, with the current
triple already persisted. -/
def c5_sys : Sys :=
  { state := { whitelist := [⟨"game.exe", "Game"⟩],
               daily_limit_minutes := 120, today_used_minutes := 0,
               last_reset_date := "2024-01-15", is_online := true,
               notifications := ⟨[], "2024-01-15"⟩ },
    cache := ⟨.missing, .missing, .valid ⟨120, 0, "2024-01-15"⟩⟩,
    remote := ⟨120, 0, "2024-01-15"⟩ }

/-- C5 counterexample: applying an approved extension changes the in-memory
triple (the limit becomes 150) but the tick ends with the durable user
state still holding the old limit 120 — `_check_extension_approvals` never
calls `save_user_state`. -/
theorem extension_not_persisted :
    (tick c5_env 10 c5_sys).sys.state.daily_limit_minutes = 150 ∧
    (tick c5_env 10 c5_sys).sys.cache.user_state_file =
      .valid ⟨120, 0, "2024-01-15"⟩ := by
  have hw : is_whitelisted "game.exe" [⟨"game.exe", "Game"⟩] = true := by
    simp [is_whitelisted]
  norm_num [tick, refresh_step, reset_step, activity_step, post_activity,
    check_extension_approvals, check_time_warnings, should_show_warning,
    get_warning_level, WarningLevel.minutes, limit_check,
    NotificationState.reset_if_new_day, c5_env, c5_sys, hw]

/-- Concrete tick environment for the C5 witness: an offline increment. -/
def c5w_env : TickEnv :=
  { refresh_due := false, refresh_ok := false, fetched_whitelist := [],
    sync_pending_ok := false, today := "2024-01-15", reset_ok := true,
    foreground_exe := some "app.exe", increment_ok := false,
    ext_fetch_ok := false, approved_extensions := [],
    notify_shown_ok := true, now := 3 }

/-- Concrete starting system for the C5 witness. -/
def c5w_sys : Sys :=
  { state := { whitelist := [], daily_limit_minutes := 120,
               today_used_minutes := 0, last_reset_date := "2024-01-15",
               is_online := true, notifications := ⟨[], "2024-01-15"⟩ },
    cache := ⟨.missing, .missing, .missing⟩,
    remote := ⟨120, 0, "2024-01-15"⟩ }

/-- C5 witness: a tick that accrues 10 offline seconds persists the updated
triple. -/
theorem user_state_persisted_witness :
    ∃ l : ℤ, (tick c5w_env 10 c5w_sys).sys.cache.user_state_file =
      .valid ⟨l, (tick c5w_env 10 c5w_sys).sys.state.today_used_minutes,
               (tick c5w_env 10 c5w_sys).sys.state.last_reset_date⟩ :=
  user_state_persisted c5w_env 10 c5w_sys (Or.inl (by
    have hused : (tick c5w_env 10 c5w_sys).sys.state.today_used_minutes =
        1/6 := by
      norm_num [tick, refresh_step, reset_step, activity_step, post_activity,
        increment_time, check_extension_approvals, check_time_warnings,
        should_show_warning, get_warning_level, WarningLevel.minutes,
        limit_check, NotificationState.reset_if_new_day, is_whitelisted,
        LocalCache.add_pending_time, LocalCache.save_pending_time,
        LocalCache.load_pending_time, LocalCache.save_user_state,
        c5w_env, c5w_sys]
    rw [hused]
    norm_num [c5w_sys]))

/-! ### Claim C2: monotonicity of today_used_minutes within a day -/

lemma refresh_step_online (env : TickEnv) (sys : Sys)
    (hok : env.refresh_ok = true) (hon : sys.state.is_online = true) :
    (refresh_step env sys).state.is_online = true ∧
    (refresh_step env sys).remote = sys.remote := by
  unfold refresh_step
  by_cases hdue : env.refresh_due = true <;> simp [hdue, hok, hon]

lemma increment_time_online (env : TickEnv) (s : MonitorState)
    (c : LocalCache) (r : RemoteUser) (sec : ℚ)
    (hon : s.is_online = true) (hok : env.increment_ok = true) :
    increment_time env s c r sec =
      ({ s with today_used_minutes := r.today_used_minutes + sec / 60 },
       c.save_user_state s.daily_limit_minutes
         (r.today_used_minutes + sec / 60) s.last_reset_date,
       { r with today_used_minutes := r.today_used_minutes + sec / 60 }) := by
  unfold increment_time
  simp [hon, hok]

/-- C2 (amended): a tick whose gateway calls all succeed, starting online
and synced with the remote, never decreases `today_used_minutes` within the
day, and preserves the online-and-synced invariant; without that proviso
the online branch of `_increment_time` can decrease it (see the
counterexample, where a failed pending-time flush leaves the remote total
below the local optimistic total). -/
theorem used_minutes_monotone_online (env : TickEnv) (poll : ℚ) (sys : Sys)
    (hpoll : 0 ≤ poll)
    (hday : env.today = sys.state.last_reset_date)
    (honline : sys.state.is_online = true)
    (hsync : sys.state.today_used_minutes = sys.remote.today_used_minutes)
    (hiok : env.increment_ok = true) (hrok : env.refresh_ok = true) :
    sys.state.today_used_minutes ≤
      (tick env poll sys).sys.state.today_used_minutes ∧
    (tick env poll sys).sys.state.is_online = true ∧
    (tick env poll sys).sys.state.today_used_minutes =
      (tick env poll sys).sys.remote.today_used_minutes := by
  rw [tick_components]
  have hRused : (refresh_step env sys).state.today_used_minutes =
      sys.state.today_used_minutes := (refresh_step_preserves env sys).2.1
  have hRon := (refresh_step_online env sys hrok honline).1
  have hRrem := (refresh_step_online env sys hrok honline).2
  have hdateR : (refresh_step env sys).state.last_reset_date = env.today := by
    rw [(refresh_step_preserves env sys).1, hday]
  rw [reset_step_skip env _ hdateR]
  unfold activity_step
  rcases henv : env.foreground_exe with _ | exe
  · refine ⟨le_of_eq hRused.symm, hRon, ?_⟩
    rw [hRused, hRrem, hsync]
  · simp only [henv]
    by_cases hw : is_whitelisted exe (refresh_step env sys).state.whitelist
        = true
    · simp only [hw, if_true]
      refine ⟨?_, ?_, ?_⟩
      · rw [(post_activity_fields _ _ _).2.1]
        exact le_of_eq hRused.symm
      · rw [(post_activity_fields _ _ _).2.2]
        exact hRon
      · rw [(post_activity_fields _ _ _).2.1]
        dsimp only
        rw [hRused, hRrem, hsync]
    · simp only [hw, if_false, Bool.false_eq_true]
      have hs0on : ({ (refresh_step env sys).state with
          last_foreground_exe := some exe } : MonitorState).is_online =
          true := hRon
      rw [increment_time_online env
        { (refresh_step env sys).state with last_foreground_exe := some exe }
        (refresh_step env sys).cache (refresh_step env sys).remote poll
        hs0on hiok]
      refine ⟨?_, ?_, ?_⟩
      · rw [(post_activity_fields _ _ _).2.1]
        dsimp only
        rw [hRrem, hsync]
        linarith
      · rw [(post_activity_fields _ _ _).2.2]
        exact hRon
      · rw [(post_activity_fields _ _ _).2.1]

/-- Offline tick environment for the C2 counterexample. -/
def c2_env_off : TickEnv :=
  { refresh_due := false, refresh_ok := false, fetched_whitelist := [],
    sync_pending_ok := false, today := "2024-01-15", reset_ok := true,
    foreground_exe := some "app.exe", increment_ok := false,
    ext_fetch_ok := false, approved_extensions := [],
    notify_shown_ok := true, now := 0 }

/-- Reconnecting tick environment for the C2 counterexample: the whitelist
refresh succeeds but the pending-time flush fails, then the per-tick
increment succeeds. -/
def c2_env_on : TickEnv :=
  { refresh_due := true, refresh_ok := true, fetched_whitelist := [],
    sync_pending_ok := false, today := "2024-01-15", reset_ok := true,
    foreground_exe := some "app.exe", increment_ok := true,
    ext_fetch_ok := false, approved_extensions := [],
    notify_shown_ok := true, now := 2 }

/-- Initial system for the C2 counterexample: online and synced at zero. -/
def c2_sys : Sys :=
  { state := { whitelist := [], daily_limit_minutes := 120,
               today_used_minutes := 0, last_reset_date := "2024-01-15",
               is_online := true, notifications := ⟨[], "2024-01-15"⟩ },
    cache := ⟨.missing, .missing, .missing⟩,
    remote := ⟨120, 0, "2024-01-15"⟩ }

/-- The system after two offline ticks: 20 seconds queued, a third of a
minute accrued optimistically. -/
def c2_sys2 : Sys :=
  { state := { whitelist := [], last_foreground_exe := some "app.exe",
               daily_limit_minutes := 120, today_used_minutes := 1/3,
               last_reset_date := "2024-01-15", is_locked := false,
               is_online := false, notifications := ⟨[], "2024-01-15"⟩ },
    cache := ⟨.missing, .valid [⟨10, 0⟩, ⟨10, 0⟩],
              .valid ⟨120, 1/3, "2024-01-15"⟩⟩,
    remote := ⟨120, 0, "2024-01-15"⟩ }

/-- C2 counterexample: `c2_sys2` is reached from a synced start by two
offline ticks; the next tick — same calendar day, no reset — DECREASES
`today_used_minutes` from 1/3 to 1/6, in the online branch of
`_increment_time`, because the pending-time flush failed and the remote
total (1/6) is below the local optimistic total (1/3). -/
theorem today_used_decrease_counterexample :
    (tick c2_env_off 10 (tick c2_env_off 10 c2_sys).sys).sys = c2_sys2 ∧
    (tick c2_env_on 10 c2_sys2).sys.state.last_reset_date =
      c2_sys2.state.last_reset_date ∧
    (tick c2_env_on 10 c2_sys2).sys.state.today_used_minutes <
      c2_sys2.state.today_used_minutes := by
  have h1 : (tick c2_env_off 10 c2_sys).sys =
      { state := { whitelist := [], last_foreground_exe := some "app.exe",
                   daily_limit_minutes := 120, today_used_minutes := 1/6,
                   last_reset_date := "2024-01-15", is_locked := false,
                   is_online := false, notifications := ⟨[], "2024-01-15"⟩ },
        cache := ⟨.missing, .valid [⟨10, 0⟩],
                  .valid ⟨120, 1/6, "2024-01-15"⟩⟩,
        remote := ⟨120, 0, "2024-01-15"⟩ } := by
    norm_num [tick, refresh_step, reset_step, activity_step, post_activity,
      increment_time, check_extension_approvals, check_time_warnings,
      should_show_warning, get_warning_level, WarningLevel.minutes,
      limit_check, NotificationState.reset_if_new_day, is_whitelisted,
      LocalCache.add_pending_time, LocalCache.save_pending_time,
      LocalCache.load_pending_time, LocalCache.save_user_state,
      c2_env_off, c2_sys]
  have h2 : (tick c2_env_off 10 (tick c2_env_off 10 c2_sys).sys).sys =
      c2_sys2 := by
    rw [h1]
    norm_num [tick, refresh_step, reset_step, activity_step, post_activity,
      increment_time, check_extension_approvals, check_time_warnings,
      should_show_warning, get_warning_level, WarningLevel.minutes,
      limit_check, NotificationState.reset_if_new_day, is_whitelisted,
      LocalCache.add_pending_time, LocalCache.save_pending_time,
      LocalCache.load_pending_time, LocalCache.save_user_state,
      c2_env_off, c2_sys2]
  have h3 : (tick c2_env_on 10 c2_sys2).sys.state.today_used_minutes =
      1/6 ∧ (tick c2_env_on 10 c2_sys2).sys.state.last_reset_date =
      "2024-01-15" := by
    have hflush : sync_pending_time false
        ((⟨.missing, .valid [⟨10, 0⟩, ⟨10, 0⟩],
            .valid ⟨120, 1/3, "2024-01-15"⟩⟩ : LocalCache).save_whitelist [])
        (⟨120, 0, "2024-01-15"⟩ : RemoteUser) 2 =
        (⟨.valid [], .valid [⟨20, 2⟩], .valid ⟨120, 1/3, "2024-01-15"⟩⟩,
         ⟨120, 0, "2024-01-15"⟩) := by
      have hne : ¬ ((⟨.missing, .valid [⟨10, 0⟩, ⟨10, 0⟩],
          .valid ⟨120, 1/3, "2024-01-15"⟩⟩ :
            LocalCache).save_whitelist []).load_pending_time = [] := by
        simp [LocalCache.save_whitelist, LocalCache.load_pending_time]
      unfold sync_pending_time
      simp only [get_and_clear_nonempty _ hne]
      norm_num [LocalCache.save_whitelist,
        LocalCache.load_pending_time, LocalCache.save_pending_time,
        LocalCache.add_pending_time, pendingTotal]
    constructor <;>
      norm_num [tick, refresh_step, reset_step, activity_step, post_activity,
        increment_time, check_extension_approvals, check_time_warnings,
        should_show_warning, get_warning_level, WarningLevel.minutes,
        limit_check, NotificationState.reset_if_new_day, is_whitelisted,
        hflush, LocalCache.save_user_state, c2_env_on, c2_sys2]
  refine ⟨h2, ?_, ?_⟩
  · rw [h3.2]
    rfl
  · rw [h3.1]
    norm_num [c2_sys2]

/-- Fully-successful tick environment for the C2 witness. -/
def c2w_env : TickEnv :=
  { refresh_due := true, refresh_ok := true, fetched_whitelist := [],
    sync_pending_ok := true, today := "2024-01-15", reset_ok := true,
    foreground_exe := some "app.exe", increment_ok := true,
    ext_fetch_ok := true, approved_extensions := [],
    notify_shown_ok := true, now := 0 }

/-- C2 witness: a fully-online synced tick applies the theorem at concrete
inputs. -/
theorem used_minutes_monotone_online_witness :
    c2_sys.state.today_used_minutes ≤
      (tick c2w_env 10 c2_sys).sys.state.today_used_minutes ∧
    (tick c2w_env 10 c2_sys).sys.state.is_online = true ∧
    (tick c2w_env 10 c2_sys).sys.state.today_used_minutes =
      (tick c2w_env 10 c2_sys).sys.remote.today_used_minutes :=
  used_minutes_monotone_online c2w_env 10 c2_sys (by norm_num) rfl rfl rfl
    rfl rfl

/-! ### Claim C1: conservation of usage -/

lemma pending_sum_save_user (c : LocalCache) (l : ℤ) (u : ℚ) (d : String) :
    (c.save_user_state l u d).pending_sum = c.pending_sum := rfl

lemma pending_sum_save_whitelist (c : LocalCache)
    (items : List WhitelistItem) :
    (c.save_whitelist items).pending_sum = c.pending_sum := rfl

lemma pending_sum_save_nil (c : LocalCache) :
    (c.save_pending_time []).pending_sum = 0 := by
  simp [LocalCache.pending_sum, load_save_pending, pendingTotal]

lemma pending_sum_add (c : LocalCache) (s : ℚ) (now : ℕ) :
    (c.add_pending_time s now).pending_sum = c.pending_sum + s := by
  simp [LocalCache.pending_sum, load_add_pending, pendingTotal]

/-- The flush never creates or destroys seconds: remote plus queued is
unchanged, and a nonnegative queue stays nonnegative. -/
lemma sync_pending_conservation (ok : Bool) (c : LocalCache) (r : RemoteUser)
    (now : ℕ) (h0 : 0 ≤ c.pending_sum) :
    (sync_pending_time ok c r now).2.today_used_minutes +
        ((sync_pending_time ok c r now).1).pending_sum / 60 =
      r.today_used_minutes + c.pending_sum / 60 ∧
    0 ≤ ((sync_pending_time ok c r now).1).pending_sum := by
  unfold sync_pending_time
  by_cases h : c.load_pending_time = []
  · simp [get_and_clear_empty _ h, h0]
  · simp only [get_and_clear_nonempty _ h]
    have hps : pendingTotal c.load_pending_time = c.pending_sum := rfl
    split
    · split
      · simp only [pending_sum_save_nil]
        constructor
        · rw [hps]
          ring
        · norm_num
      · simp only [pending_sum_add, pending_sum_save_nil, zero_add]
        refine ⟨by rw [hps], hps ▸ h0⟩
    · rename_i hlt
      rw [hps] at hlt
      have hz : c.pending_sum = 0 := le_antisymm (not_lt.mp hlt) h0
      simp [pending_sum_save_nil, hz]

/-- One increment adds exactly its seconds to remote-plus-queued. -/
lemma increment_time_conservation (env : TickEnv) (s : MonitorState)
    (c : LocalCache) (r : RemoteUser) (sec : ℚ) :
    (increment_time env s c r sec).2.2.today_used_minutes +
        ((increment_time env s c r sec).2.1).pending_sum / 60 =
      r.today_used_minutes + c.pending_sum / 60 + sec / 60 ∧
    (0 ≤ c.pending_sum → 0 ≤ sec →
      0 ≤ ((increment_time env s c r sec).2.1).pending_sum) := by
  unfold increment_time
  split
  · simp only [pending_sum_save_user]
    constructor
    · ring
    · intro h0 _
      exact h0
  · simp only [pending_sum_save_user, pending_sum_add]
    constructor
    · ring
    · intro h0 hs
      positivity

lemma refresh_step_conservation (env : TickEnv) (sys : Sys)
    (h0 : 0 ≤ sys.cache.pending_sum) :
    (refresh_step env sys).remote.today_used_minutes +
        (refresh_step env sys).cache.pending_sum / 60 =
      sys.remote.today_used_minutes + sys.cache.pending_sum / 60 ∧
    0 ≤ (refresh_step env sys).cache.pending_sum := by
  unfold refresh_step
  split
  · split
    · dsimp only
      split
      · have h0' : 0 ≤ (sys.cache.save_whitelist
            env.fetched_whitelist).pending_sum := by
          rw [pending_sum_save_whitelist]
          exact h0
        have hc := sync_pending_conservation env.sync_pending_ok
          (sys.cache.save_whitelist env.fetched_whitelist) sys.remote
          env.now h0'
        rw [pending_sum_save_whitelist] at hc
        exact hc
      · simp [pending_sum_save_whitelist, h0]
    · exact ⟨rfl, h0⟩
  · exact ⟨rfl, h0⟩

lemma activity_step_conservation (env : TickEnv) (poll : ℚ) (sys : Sys)
    (b : Bool) (h0 : 0 ≤ sys.cache.pending_sum) (hpoll : 0 ≤ poll) :
    (activity_step env poll sys b).sys.remote.today_used_minutes +
        (activity_step env poll sys b).sys.cache.pending_sum / 60 =
      sys.remote.today_used_minutes + sys.cache.pending_sum / 60 +
        (if (activity_step env poll sys b).counted then poll else 0) / 60 ∧
    0 ≤ (activity_step env poll sys b).sys.cache.pending_sum := by
  unfold activity_step
  rcases henv : env.foreground_exe with _ | exe
  · simp [h0]
  · simp only [henv]
    by_cases hw : is_whitelisted exe sys.state.whitelist = true
    · simp only [hw, if_true, Bool.not_true]
      simp [h0]
    · simp only [hw, if_false, Bool.false_eq_true, Bool.not_false]
      have hc := increment_time_conservation env
        { sys.state with last_foreground_exe := some exe } sys.cache
        sys.remote poll
      simp only [if_true]
      exact ⟨hc.1, hc.2 h0 hpoll⟩

/-- One tick on the current day adds exactly the counted seconds to
remote-plus-queued, keeps the queue nonnegative, and stays on the day. -/
lemma tick_conservation (env : TickEnv) (poll : ℚ) (sys : Sys)
    (hpoll : 0 ≤ poll) (hday : sys.state.last_reset_date = env.today)
    (h0 : 0 ≤ sys.cache.pending_sum) :
    (tick env poll sys).sys.remote.today_used_minutes +
        (tick env poll sys).sys.cache.pending_sum / 60 =
      sys.remote.today_used_minutes + sys.cache.pending_sum / 60 +
        (if (tick env poll sys).counted then poll else 0) / 60 ∧
    0 ≤ (tick env poll sys).sys.cache.pending_sum ∧
    (tick env poll sys).sys.state.last_reset_date = env.today := by
  have hdateR : (refresh_step env sys).state.last_reset_date = env.today := by
    rw [(refresh_step_preserves env sys).1, hday]
  have hR := refresh_step_conservation env sys h0
  have hA := activity_step_conservation env poll (refresh_step env sys)
    false hR.2 hpoll
  rw [tick_components, reset_step_skip _ _ hdateR]
  refine ⟨?_, hA.2, ?_⟩
  · rw [hA.1, hR.1]
  · rw [(activity_step_date _ _ _ _).1, hdateR]

/-- Running any same-day trace adds exactly the counted seconds to
remote-plus-queued. -/
lemma run_ticks_conservation (poll : ℚ) (D : String) (hpoll : 0 ≤ poll) :
    ∀ (envs : List TickEnv) (sys : Sys),
      (∀ e ∈ envs, e.today = D) →
      sys.state.last_reset_date = D → 0 ≤ sys.cache.pending_sum →
      (run_ticks_counting poll envs sys).1.remote.today_used_minutes +
          (run_ticks_counting poll envs sys).1.cache.pending_sum / 60 =
        sys.remote.today_used_minutes + sys.cache.pending_sum / 60 +
          (run_ticks_counting poll envs sys).2 / 60 ∧
      0 ≤ (run_ticks_counting poll envs sys).1.cache.pending_sum ∧
      (run_ticks_counting poll envs sys).1.state.last_reset_date = D := by
  intro envs
  induction envs with
  | nil =>
    intro sys _ hdate h0
    exact ⟨by simp [run_ticks_counting],
      by simpa [run_ticks_counting] using h0,
      by simpa [run_ticks_counting] using hdate⟩
  | cons e rest ih =>
    intro sys hdays hdate h0
    have he : e.today = D := hdays e (List.mem_cons_self e rest)
    have ht := tick_conservation e poll sys hpoll (by rw [hdate, he]) h0
    have ih' := ih (tick e poll sys).sys
      (fun e' he' => hdays e' (List.mem_cons_of_mem e he'))
      (by rw [ht.2.2, he]) ht.2.1
    have hrun : run_ticks_counting poll (e :: rest) sys =
        ((run_ticks_counting poll rest (tick e poll sys).sys).1,
          (if (tick e poll sys).counted then poll else 0) +
            (run_ticks_counting poll rest (tick e poll sys).sys).2) := rfl
    rw [hrun]
    refine ⟨?_, ih'.2.1, ih'.2.2⟩
    dsimp only
    rw [ih'.1, ht.1]
    ring

lemma load_from_cache_date (s : MonitorState) (c : LocalCache) (D : String)
    (hs : s.last_reset_date = D)
    (hc : ∀ u, c.user_state_file = .valid u → u.last_reset_date = D) :
    (load_from_cache s c).last_reset_date = D := by
  unfold load_from_cache
  rcases hu : c.load_user_state with _ | u
  · rcases hw : c.load_whitelist with _ | wl <;> simp [hu, hw, hs]
  · rcases hw : c.load_whitelist with _ | wl <;> simp only [hu, hw] <;>
      exact hc u (by
        revert hu
        unfold LocalCache.load_user_state
        rcases c.user_state_file with _ | _ | u' <;> simp <;> intro h <;>
          rw [h])

/-- Startup reconciliation neither creates nor destroys seconds and keeps
the session on the current day. -/
lemma initial_sync_conservation (ienv : InitEnv) (sys : Sys) (D : String)
    (hdate : sys.state.last_reset_date = D)
    (hrdate : sys.remote.last_reset_date = D)
    (hcdate : ∀ u, sys.cache.user_state_file = .valid u →
      u.last_reset_date = D)
    (h0 : 0 ≤ sys.cache.pending_sum) :
    (initial_sync ienv sys).remote.today_used_minutes +
        (initial_sync ienv sys).cache.pending_sum / 60 =
      sys.remote.today_used_minutes + sys.cache.pending_sum / 60 ∧
    0 ≤ (initial_sync ienv sys).cache.pending_sum ∧
    (initial_sync ienv sys).state.last_reset_date = D := by
  have hflush := sync_pending_conservation ienv.initial_flush_ok sys.cache
    sys.remote ienv.now h0
  have hfile := sync_pending_user_file ienv.initial_flush_ok sys.cache
    sys.remote ienv.now
  unfold initial_sync
  split
  · split
    · refine ⟨?_, ?_, ?_⟩
      · simpa [pending_sum_save_user, pending_sum_save_whitelist]
          using hflush.1
      · simpa [pending_sum_save_user, pending_sum_save_whitelist]
          using hflush.2
      · dsimp only
        rw [hfile.2.1, hrdate]
    · refine ⟨?_, ?_, ?_⟩
      · simpa [pending_sum_save_whitelist] using hflush.1
      · simpa [pending_sum_save_whitelist] using hflush.2
      · dsimp only
        apply load_from_cache_date
        · exact hdate
        · intro u hu
          have hu' : (sync_pending_time ienv.initial_flush_ok sys.cache
              sys.remote ienv.now).1.user_state_file = .valid u := by
            simpa [LocalCache.save_whitelist] using hu
          apply hcdate u
          rw [← hfile.1]
          exact hu'
  · refine ⟨hflush.1, hflush.2, ?_⟩
    dsimp only
    apply load_from_cache_date
    · exact hdate
    · intro u hu
      apply hcdate u
      rw [← hfile.1]
      exact hu

/-- C1: for any same-day trace of ticks, starting from a synced day start
(remote counter zero, empty pending queue), after `_initial_sync`, the
ticks, and a finally successful pending-time flush, the authoritative
remote total equals the sum of all non-whitelisted, non-idle ticks'
`poll_interval_seconds / 60` — no queued seconds are lost, none are counted
twice, no matter which ticks ran offline. -/
theorem conservation_of_usage (D : String) (poll : ℚ) (ienv : InitEnv)
    (envs : List TickEnv) (fnow : ℕ) (sys0 : Sys)
    (hpoll : 0 ≤ poll)
    (hdays : ∀ e ∈ envs, e.today = D)
    (hdate : sys0.state.last_reset_date = D)
    (hrdate : sys0.remote.last_reset_date = D)
    (hcdate : ∀ u, sys0.cache.user_state_file = .valid u →
      u.last_reset_date = D)
    (hr0 : sys0.remote.today_used_minutes = 0)
    (hp0 : sys0.cache.load_pending_time = []) :
    (sync_pending_time true
        (run_ticks_counting poll envs (initial_sync ienv sys0)).1.cache
        (run_ticks_counting poll envs (initial_sync ienv sys0)).1.remote
        fnow).2.today_used_minutes =
      (run_ticks_counting poll envs (initial_sync ienv sys0)).2 / 60 := by
  have hps0 : sys0.cache.pending_sum = 0 := pending_sum_nil _ hp0
  have hinit := initial_sync_conservation ienv sys0 D hdate hrdate hcdate
    (le_of_eq hps0.symm)
  have hrun := run_ticks_conservation poll D hpoll envs
    (initial_sync ienv sys0) hdays hinit.2.2 hinit.2.1
  rw [sync_pending_success _ _ _ hrun.2.1]
  have h1 := hrun.1
  have h2 := hinit.1
  rw [hps0, hr0] at h2
  linarith

/-- Tick environment for the C1 witness: one offline counted tick. -/
def c1_env : TickEnv :=
  { refresh_due := false, refresh_ok := false, fetched_whitelist := [],
    sync_pending_ok := false, today := "2024-01-15", reset_ok := true,
    foreground_exe := some "app.exe", increment_ok := false,
    ext_fetch_ok := false, approved_extensions := [],
    notify_shown_ok := true, now := 0 }

/-- Startup environment for the C1 witness. -/
def c1_ienv : InitEnv :=
  { initial_flush_ok := true, refresh_ok := true, fetched_whitelist := [],
    user_fetch_ok := true, now := 0 }

/-- Starting system for the C1 witness: a fresh day, nothing queued. -/
def c1_sys : Sys :=
  { state := { whitelist := [], daily_limit_minutes := 120,
               today_used_minutes := 0, last_reset_date := "2024-01-15",
               is_online := true, notifications := ⟨[], "2024-01-15"⟩ },
    cache := ⟨.missing, .missing, .missing⟩,
    remote := ⟨120, 0, "2024-01-15"⟩ }

/-- C1 witness: the conservation theorem applied to a concrete one-tick
offline trace followed by a successful flush. -/
theorem conservation_of_usage_witness :
    (sync_pending_time true
        (run_ticks_counting 10 [c1_env] (initial_sync c1_ienv c1_sys)).1.cache
        (run_ticks_counting 10 [c1_env]
          (initial_sync c1_ienv c1_sys)).1.remote
        9).2.today_used_minutes =
      (run_ticks_counting 10 [c1_env] (initial_sync c1_ienv c1_sys)).2 / 60 :=
  conservation_of_usage "2024-01-15" 10 c1_ienv [c1_env] 9 c1_sys
    (by norm_num) (by simp [c1_env]) rfl rfl
    (fun u h => FileState.noConfusion h) rfl rfl

end Screentime
